import Mathlib

set_option maxRecDepth 8000

/-!
Shallow embedding of the SEMANTICK task-orchestration subsystem.

The embedding follows the Python sources:
* `services/api-gateway/app/core/redis_client.py` (status store),
* `services/api-gateway/app/core/rabbitmq_publisher.py` (gateway publisher),
* `services/api-gateway/app/api/websocket.py` (notification hub and monitor loop),
* `services/document-processor/app/core/rabbitmq_consumer.py` (consumer dispatch),
* `services/document-processor/app/core/rabbitmq_publisher.py` (embedding publisher),
* `services/document-processor/app/tasks/processing.py` (document worker),
* `services/embedding-processor/app/tasks/embedding_task.py` and
  `services/embedding-processor/app/handlers/embedding_handler.py` (embedding worker).

External collaborators (Redis transport, RabbitMQ transport, file parsing,
chunk splitting, embedding computation, Qdrant upsert, wall-clock timestamps)
are modelled as explicit parameters/oracles, matching the spec's scope rules.
-/

/-- Structured error object stored on a failed task record (`{type, message}`). -/
structure ErrObj where
  type : String
  message : String
deriving DecidableEq

/-- One per-file entry of a folder batch's `results[]` list
(`generate_embedding_batch`, processing.py). -/
structure BatchEntry where
  filename : String
  status : String
  reason : Option String := none
deriving DecidableEq

/-- One per-file entry of a folder batch's `errors[]` list. -/
structure BatchError where
  filename : String
  error : String
deriving DecidableEq

/-- The `final_result` dict built at the end of `generate_embedding_batch`. -/
structure BatchFinal where
  status : String
  total_files : Nat
  processed : Nat
  errors_count : Nat
  results : List BatchEntry
  errors : List BatchError
deriving DecidableEq

/-- The `result` field of a task record: either a single-file result dict
(`generate_embedding`) or a batch result dict (`generate_embedding_batch`).
Only the semantically relevant counters are kept. -/
inductive ResultVal
| fileResult (text_length : Nat) (chunks_count : Nat)
| batchResult (b : BatchFinal)
deriving DecidableEq

/-- A task record as stored in Redis under `task:{task_id}:status`
(redis_client.py docstring; extra numeric fields written by the batch worker
are included; timestamp strings are irrelevant to the claims and omitted). -/
structure TaskRecord where
  status : String := "pending"
  progress : Nat := 0
  current_step : Nat := 0
  total_steps : Nat := 6
  message : String := ""
  filename : String := ""
  folder_name : String := ""
  error : Option ErrObj := none
  result : Option ResultVal := none
  total_files : Nat := 0
  current_file : Nat := 0
  processed : Nat := 0
  errorsN : Nat := 0
deriving DecidableEq

/-- The shared status store: the Redis keyspace restricted to
`task:{task_id}:status` keys, as an association list keyed by task_id. -/
def Store := List (String × TaskRecord)

instance : DecidableEq Store := by
  unfold Store
  infer_instance

/-- `redis.get` on `task:{task_id}:status` (`TaskStatusManager.get_task_status`). -/
def storeGet : Store → String → Option TaskRecord
| [], _ => none
| (k, v) :: rest, tid => if k = tid then some v else storeGet rest tid

/-- `redis.setex` on `task:{task_id}:status`: unconditional write (the TTL
refresh has no effect on record contents and is not modelled). -/
def storeSet : Store → String → TaskRecord → Store
| [], tid, v => [(tid, v)]
| (k, w) :: rest, tid, v =>
    if k = tid then (tid, v) :: rest else (k, w) :: storeSet rest tid v

/-- The keyword-argument patch accepted by the gateway's
`TaskStatusManager.update_task_status` (redis_client.py lines 105-113):
exactly the six optional parameters. -/
structure GPatch where
  status : Option String := none
  progress : Option Nat := none
  current_step : Option Nat := none
  message : Option String := none
  error : Option ErrObj := none
  result : Option ResultVal := none
deriving DecidableEq

/-- The field-by-field merge in `update_task_status` (lines 135-146):
every parameter that `is not None` overwrites the stored field. -/
def applyGPatch (r : TaskRecord) (p : GPatch) : TaskRecord :=
  { r with
    status := p.status.getD r.status
    progress := p.progress.getD r.progress
    current_step := p.current_step.getD r.current_step
    message := p.message.getD r.message
    error := match p.error with | some e => some e | none => r.error
    result := match p.result with | some v => some v | none => r.result }

/-- `TaskStatusManager.update_task_status` (redis_client.py lines 105-161):
read the current record; if missing, warn and return False; otherwise merge
the given fields and `setex` the result back, returning True.  The function
performs no inspection of the stored `status` field. -/
def update_task_status (s : Store) (task_id : String) (p : GPatch) :
    Store × Bool :=
  match storeGet s task_id with
  | none => (s, false)
  | some r => (storeSet s task_id (applyGPatch r p), true)

theorem storeGet_storeSet_self (s : Store) (tid : String) (v : TaskRecord) :
    storeGet (storeSet s tid v) tid = some v := by
  induction s with
  | nil => simp [storeSet, storeGet]
  | cons kv rest ih =>
      obtain ⟨k, w⟩ := kv
      by_cases h : k = tid
      · simp [storeSet, storeGet, h]
      · simp [storeSet, storeGet, h, ih]

/-- A store holding one task whose status is already terminal (`completed`). -/
def demoTerminalStore : Store :=
  [("t1", { status := "completed", progress := 100, current_step := 6 })]

/-- C1 counterexample: `update_task_status` applied to a record whose stored
status is the terminal `completed` and a patch carrying the different terminal
status `cancelled` is neither rejected nor ignored — it returns True and the
stored status transitions from `completed` to `cancelled`. -/
theorem C1_terminal_update_not_rejected :
    (storeGet demoTerminalStore "t1").map TaskRecord.status = some "completed"
    ∧ (update_task_status demoTerminalStore "t1" { status := some "cancelled" }).2 = true
    ∧ (storeGet (update_task_status demoTerminalStore "t1"
        { status := some "cancelled" }).1 "t1").map TaskRecord.status
        = some "cancelled" := by
  refine ⟨rfl, rfl, rfl⟩

/-- C1 (amended): the status-store update merges its patch into any existing
record unconditionally — including records already in a terminal state, whose
status it overwrites when the patch carries one — and returns True; the only
rejected call is one naming a missing record, which returns False and leaves
the store unchanged. -/
theorem C1_update_merges_unconditionally (s : Store) (tid : String) (p : GPatch) :
    (∀ r, storeGet s tid = some r →
        (update_task_status s tid p).2 = true
        ∧ storeGet (update_task_status s tid p).1 tid = some (applyGPatch r p))
    ∧ (storeGet s tid = none → update_task_status s tid p = (s, false)) := by
  constructor
  · intro r hr
    constructor
    · simp [update_task_status, hr]
    · simp [update_task_status, hr, storeGet_storeSet_self]
  · intro hn
    simp [update_task_status, hn]

/-- C1 witness: the amended theorem evaluated on the concrete terminal-status
store, at a patch replacing the terminal status. -/
theorem C1_update_merges_unconditionally_witness :
    (update_task_status demoTerminalStore "t1" { status := some "failed" }).2 = true
    ∧ storeGet (update_task_status demoTerminalStore "t1"
        { status := some "failed" }).1 "t1"
      = some (applyGPatch { status := "completed", progress := 100, current_step := 6 }
          { status := some "failed" }) :=
  (C1_update_merges_unconditionally demoTerminalStore "t1"
      { status := some "failed" }).1
    { status := "completed", progress := 100, current_step := 6 } rfl

/-!
Consumer dispatch of the document worker
(`document-processor/app/core/rabbitmq_consumer.py`).
-/

/-- Python truthiness test `if not x` on an optional string
(absent key, or present but empty). -/
def strFalsy : Option String → Bool
| none => true
| some s => decide (s = "")

/-- Python truthiness test on an optional list. -/
def listFalsy : Option (List String) → Bool
| none => true
| some l => l.isEmpty

/-- The fields `on_message` reads out of a parsed envelope payload
(`payload.get(...)` calls); `none` models an absent key. -/
structure MsgPayload where
  task_id : Option String := none
  type : Option String := none
  file_path : Option String := none
  filename : Option String := none
  file_paths : Option (List String) := none
  folder_name : Option String := none
deriving DecidableEq

/-- An incoming broker message body: either not parseable as JSON, or a
parsed payload. -/
inductive MsgBody
| malformed
| parsed (p : MsgPayload)

/-- A `celery_app.send_task` performed by the consumer. -/
structure CelerySend where
  taskName : String
  api_task_id : String
  queue : String
deriving DecidableEq

/-- The observable outcome of one `on_message` invocation: the status store
after the call, the Celery dispatches made, the temp files deleted, and
whether the broker message was acknowledged. -/
structure OnMsgOut where
  store : Store
  sends : List CelerySend
  deletes : List String
  acked : Bool
deriving DecidableEq

/-- `RedisStatusUpdater.update_task_failed` (rabbitmq_consumer.py lines
49-77): if the record exists, merge in `status=failed`, `progress=100`, a
fixed message and a `consumer_error` error object; otherwise only warn. -/
def update_task_failed (s : Store) (tid : String) (emsg : String) : Store :=
  match storeGet s tid with
  | none => s
  | some r =>
      storeSet s tid
        { r with
          status := "failed"
          progress := 100
          message := "Ошибка при создании задачи обработки"
          error := some ⟨"consumer_error", emsg⟩ }

/-- `on_message` (rabbitmq_consumer.py lines 89-141) together with the
dispatch helpers `process_single_file` / `process_folder` it calls.  Running
under `async with message.process()`, every branch below exits normally, so
every branch acknowledges.  A `ValueError` raised inside a helper is caught
there (writing a failed status), re-raised, and caught again by the outer
handler (writing a failed status once more); Celery submission itself is
modelled as succeeding.  No branch reads the status store and no branch
deletes a file. -/
def on_message (st : Store) (body : MsgBody) : OnMsgOut :=
  match body with
  | .malformed => { store := st, sends := [], deletes := [], acked := true }
  | .parsed p =>
    if strFalsy p.task_id then
      { store := st, sends := [], deletes := [], acked := true }
    else
      let tid := p.task_id.getD ""
      let task_type := p.type.getD "single_file"
      if task_type = "single_file" then
        if strFalsy p.file_path || strFalsy p.filename then
          { store := update_task_failed
              (update_task_failed st tid
                "Failed to create Celery task: Missing file_path or filename in payload")
              tid "Consumer error: Missing file_path or filename in payload"
            sends := [], deletes := [], acked := true }
        else
          { store := st
            sends := [⟨"worker-document-processor.generate_embedding", tid,
                        "documents.tasks"⟩]
            deletes := [], acked := true }
      else if task_type = "folder" then
        if listFalsy p.file_paths then
          { store := update_task_failed
              (update_task_failed st tid
                "Failed to create batch Celery task: Missing file_paths in payload")
              tid "Consumer error: Missing file_paths in payload"
            sends := [], deletes := [], acked := true }
        else
          { store := st
            sends := [⟨"worker-document-processor.generate_embedding_batch", tid,
                        "documents.tasks"⟩]
            deletes := [], acked := true }
      else
        { store := update_task_failed st tid ("Unknown task type: " ++ task_type)
          sends := [], deletes := [], acked := true }

/-- A store whose only task is already `cancelled`. -/
def cancelledStore : Store := [("t9", { status := "cancelled" })]

/-- A well-formed single-file envelope for the cancelled task. -/
def cancelledEnvelope : MsgPayload :=
  { task_id := some "t9", type := some "single_file",
    file_path := some "uploads/a.txt", filename := some "a.txt" }

/-- C2 counterexample: consuming a well-formed envelope whose task is already
`cancelled` in the status store, the dispatch does not stop: it performs a
Celery dispatch (further processing work) and deletes no temp files — there
is no status lookup and no cancellation short-circuit in `on_message`. -/
theorem C2_no_cancellation_recheck :
    (storeGet cancelledStore "t9").map TaskRecord.status = some "cancelled"
    ∧ (on_message cancelledStore (.parsed cancelledEnvelope)).sends
        = [⟨"worker-document-processor.generate_embedding", "t9", "documents.tasks"⟩]
    ∧ (on_message cancelledStore (.parsed cancelledEnvelope)).deletes = [] := by
  refine ⟨rfl, rfl, rfl⟩

/-- C2 (amended): the per-message dispatch never consults the status store:
for every well-formed single-file envelope it dispatches the processing task
to Celery and deletes nothing, for every ambient store state — in particular
when the stored status is already `cancelled`. -/
theorem C2_dispatch_ignores_status (st : Store) (p : MsgPayload)
    (tid fp fn : String)
    (h1 : p.task_id = some tid) (h2 : tid ≠ "")
    (h3 : p.type.getD "single_file" = "single_file")
    (h4 : p.file_path = some fp) (h5 : fp ≠ "")
    (h6 : p.filename = some fn) (h7 : fn ≠ "") :
    on_message st (.parsed p)
      = { store := st
          sends := [⟨"worker-document-processor.generate_embedding", tid,
                      "documents.tasks"⟩]
          deletes := [], acked := true } := by
  simp [on_message, strFalsy, h1, h2, h3, h4, h5, h6, h7]

/-- C2 witness: the amended theorem applied to the concrete cancelled store
and envelope. -/
theorem C2_dispatch_ignores_status_witness :
    on_message cancelledStore (.parsed cancelledEnvelope)
      = { store := cancelledStore
          sends := [⟨"worker-document-processor.generate_embedding", "t9",
                      "documents.tasks"⟩]
          deletes := [], acked := true } :=
  C2_dispatch_ignores_status cancelledStore cancelledEnvelope "t9"
    "uploads/a.txt" "a.txt" rfl (by decide) rfl rfl (by decide) rfl (by decide)

/-- C5: every malformed broker message (unparseable body, or a payload whose
`task_id` is absent or empty) is acknowledged and dropped: no Celery
dispatch, no file deletion, no write to the status store, only logging. -/
theorem C5_poison_message_containment (st : Store) (p : MsgPayload)
    (h : strFalsy p.task_id = true) :
    on_message st .malformed = { store := st, sends := [], deletes := [], acked := true }
    ∧ on_message st (.parsed p)
        = { store := st, sends := [], deletes := [], acked := true } := by
  constructor
  · rfl
  · simp [on_message, h]

/-- C5 witness: the containment theorem at a concrete store and a concrete
payload lacking a task_id. -/
theorem C5_poison_message_containment_witness :
    on_message cancelledStore .malformed
      = { store := cancelledStore, sends := [], deletes := [], acked := true }
    ∧ on_message cancelledStore
        (.parsed { type := some "single_file", file_path := some "x" })
      = { store := cancelledStore, sends := [], deletes := [], acked := true } :=
  C5_poison_message_containment cancelledStore
    { type := some "single_file", file_path := some "x" } rfl

/-!
Notification hub (`api-gateway/app/api/websocket.py`): the
`ConnectionManager` state, the websocket endpoint's event handling, and the
`monitor_task_status` polling loop.
-/

/-- Lookup in the `task_subscriptions` dict. -/
def subsGet : List (String × List String) → String → Option (List String)
| [], _ => none
| (k, v) :: r, t => if k = t then some v else subsGet r t

/-- Assignment into the `task_subscriptions` dict. -/
def subsSet : List (String × List String) → String → List String →
    List (String × List String)
| [], t, v => [(t, v)]
| (k, w) :: r, t, v => if k = t then (t, v) :: r else (k, w) :: subsSet r t v

/-- `del task_subscriptions[t]`. -/
def subsDel : List (String × List String) → String → List (String × List String)
| [], _ => []
| (k, w) :: r, t => if k = t then r else (k, w) :: subsDel r t

/-- `ConnectionManager` state plus the set of live monitor loops.  The
monitors list is a multiset of task_ids: one entry per
`asyncio.create_task(monitor_task_status(...))` that has been spawned and has
not terminated. -/
structure HubState where
  active_connections : List String
  task_subscriptions : List (String × List String)
  monitors : List String
deriving DecidableEq

/-- `ConnectionManager.subscribe_to_task` (websocket.py lines 40-44): create
the subscriber set if missing, then `set.add` the client. -/
def subscribe_to_task (subs : List (String × List String)) (c t : String) :
    List (String × List String) :=
  match subsGet subs t with
  | none => subsSet subs t [c]
  | some s => subsSet subs t (if c ∈ s then s else s ++ [c])

/-- `ConnectionManager.unsubscribe_from_task` (websocket.py lines 46-50):
discard the client; delete the key when the set becomes empty.  The monitors
are untouched — the manager holds no reference to them. -/
def unsubscribe_from_task (subs : List (String × List String)) (c t : String) :
    List (String × List String) :=
  match subsGet subs t with
  | none => subs
  | some s =>
      let s' := s.filter (fun x => x ≠ c)
      if s'.isEmpty then subsDel subs t else subsSet subs t s'

/-- `ConnectionManager.disconnect` (websocket.py lines 30-38): drop the
socket and discard the client from every subscriber set, deleting sets that
become empty.  Again no monitor is touched. -/
def hubDisconnect (st : HubState) (c : String) : HubState :=
  { active_connections := st.active_connections.filter (fun x => x ≠ c)
    task_subscriptions :=
      st.task_subscriptions.foldr
        (fun kv acc =>
          let s' := kv.2.filter (fun x => x ≠ c)
          if s'.isEmpty then acc else (kv.1, s') :: acc) []
    monitors := st.monitors }

/-- The client-protocol events the websocket endpoint reacts to. -/
inductive HubEvent
| connect (c : String)
| subscribe (c t : String)
| unsubscribe (c t : String)
| disconnect (c : String)

/-- One step of `websocket_endpoint` (websocket.py lines 166-212).  The
`subscribe` branch (lines 184-193) calls `subscribe_to_task` and then spawns
`asyncio.create_task(monitor_task_status(task_id, ...))` unconditionally —
whether or not the task already had subscribers or a monitor.  The
`unsubscribe` branch and the disconnect path never cancel a monitor. -/
def hubStep (st : HubState) : HubEvent → HubState
| .connect c =>
    { st with active_connections :=
        if c ∈ st.active_connections then st.active_connections
        else st.active_connections ++ [c] }
| .subscribe c t =>
    { st with
      task_subscriptions := subscribe_to_task st.task_subscriptions c t
      monitors := st.monitors ++ [t] }
| .unsubscribe c t =>
    { st with task_subscriptions := unsubscribe_from_task st.task_subscriptions c t }
| .disconnect c => hubDisconnect st c

/-- A whole client/event trace. -/
def hubRun (st : HubState) (evs : List HubEvent) : HubState :=
  evs.foldl hubStep st

/-- Number of live monitor loops for a task. -/
def monitorCount (st : HubState) (t : String) : Nat := st.monitors.count t

/-- Number of subscribers of a task. -/
def subscriberCount (st : HubState) (t : String) : Nat :=
  ((subsGet st.task_subscriptions t).getD []).length

/-- The hub state at process start. -/
def initHub : HubState := ⟨[], [], []⟩

/-- C4 counterexample: after two clients subscribe to the same task, that
task has 2 subscribers but 2 live monitor loops (not exactly one); and after
a single subscriber unsubscribes, the task has 0 subscribers but still 1
live monitor loop (not zero). -/
theorem C4_monitor_uniqueness_fails :
    subscriberCount (hubRun initHub
      [.connect "a", .subscribe "a" "t", .connect "b", .subscribe "b" "t"]) "t" = 2
    ∧ monitorCount (hubRun initHub
      [.connect "a", .subscribe "a" "t", .connect "b", .subscribe "b" "t"]) "t" = 2
    ∧ subscriberCount (hubRun initHub
      [.connect "a", .subscribe "a" "t", .unsubscribe "a" "t"]) "t" = 0
    ∧ monitorCount (hubRun initHub
      [.connect "a", .subscribe "a" "t", .unsubscribe "a" "t"]) "t" = 1 := by
  refine ⟨rfl, rfl, rfl, rfl⟩

/-- C4 (amended): every `subscribe` event spawns one more monitor loop for
its task unconditionally (so a task's monitor count equals the number of
`subscribe` events for it, however many subscribers it already had), and
`unsubscribe`, `disconnect` and `connect` never cancel a monitor — a task
with zero subscribers can retain live monitors. -/
theorem C4_subscribe_always_spawns_monitor (st : HubState) (c t : String) :
    monitorCount (hubStep st (.subscribe c t)) t = monitorCount st t + 1
    ∧ (hubStep st (.unsubscribe c t)).monitors = st.monitors
    ∧ (hubStep st (.disconnect c)).monitors = st.monitors
    ∧ (hubStep st (.connect c)).monitors = st.monitors := by
  refine ⟨?_, rfl, rfl, ?_⟩
  · simp [monitorCount, hubStep]
  · simp [hubStep]

/-!
The monitor loop (`monitor_task_status`, websocket.py lines 90-159): on each
iteration it reads the task's state from the Celery result backend, builds a
`task_update` frame, and sends it to the task's subscribers.  The loop is
modelled as a function of the finite sequence of states it observes.
-/

/-- A state of the polled task as observed by the monitor loop
(`celery_app.AsyncResult(task_id).state` plus the info the loop reads). -/
inductive CeleryState
| pendingS
| progressS (progress : Nat) (current_step : Nat) (message : String)
| successS (result : ResultVal)
| failureS (err : ErrObj)
| revokedS
| otherS (s : String)
deriving DecidableEq

/-- One outbound `task_update` frame. -/
structure PushMsg where
  task_id : String
  type : String := "task_update"
  status : Option String := none
  progress : Option Nat := none
  current_step : Option Nat := none
  message : Option String := none
  result : Option ResultVal := none
  error : Option ErrObj := none
deriving DecidableEq

/-- The `data` frame each branch of the loop body builds (lines 110-153).
States other than the five named ones leave only `{task_id, type}`. -/
def renderState (task_id : String) : CeleryState → PushMsg
| .pendingS =>
    { task_id, status := some "pending", progress := some 0,
      message := some "Задача в очереди..." }
| .progressS p cs m =>
    { task_id, status := some "processing", progress := some p,
      current_step := some cs, message := some m }
| .successS r =>
    { task_id, status := some "completed", progress := some 100,
      result := some r, message := some "Обработка завершена" }
| .failureS e =>
    { task_id, status := some "failed", error := some e,
      message := some "Ошибка обработки" }
| .revokedS =>
    { task_id, status := some "cancelled", message := some "Задача отменена" }
| .otherS _ => { task_id }

/-- The three states on which the loop `break`s (SUCCESS, FAILURE, REVOKED). -/
def isTerminalState : CeleryState → Bool
| .successS _ => true
| .failureS _ => true
| .revokedS => true
| _ => false

/-- `monitor_task_status` as a function of the observed state sequence: on a
terminal state the loop sends the frame and breaks; on any other state it
sends the frame (line 155) and iterates.  The output is the sequence of
frames pushed to subscribers. -/
def monitor_task_status (task_id : String) : List CeleryState → List PushMsg
| [] => []
| s :: rest =>
    if isTerminalState s then [renderState task_id s]
    else renderState task_id s :: monitor_task_status task_id rest

/-- C9 counterexample: observing the same non-terminal status twice, the
monitor pushes two identical consecutive frames — it never compares against
a last-sent snapshot, so it does not push only on change. -/
theorem C9_pushes_without_change :
    monitor_task_status "t1" [.pendingS, .pendingS]
      = [renderState "t1" .pendingS, renderState "t1" .pendingS] := rfl

/-- C9 (amended): the monitor pushes one frame on every polling iteration,
with no change-suppression; upon the first terminal status observed it
pushes exactly one final frame and stops unconditionally, regardless of any
further observations and without waiting for subscribers to unsubscribe. -/
theorem C9_push_every_iteration_stop_on_terminal (tid : String)
    (pre : List CeleryState) (s : CeleryState) (post : List CeleryState)
    (hpre : ∀ x ∈ pre, isTerminalState x = false)
    (hs : isTerminalState s = true) :
    monitor_task_status tid (pre ++ s :: post)
      = pre.map (renderState tid) ++ [renderState tid s] := by
  induction pre with
  | nil => simp [monitor_task_status, hs]
  | cons x xs ih =>
      have hx : isTerminalState x = false := hpre x (List.mem_cons_self x xs)
      have hxs : ∀ y ∈ xs, isTerminalState y = false := fun y hy =>
        hpre y (List.mem_cons_of_mem x hy)
      simp [monitor_task_status, hx, ih hxs]

/-- C9 witness: the amended theorem at a concrete observation sequence
`[PENDING, REVOKED, PENDING]`: one pending push, one final cancelled push,
nothing after the terminal observation. -/
theorem C9_push_every_iteration_stop_on_terminal_witness :
    monitor_task_status "t1" [.pendingS, .revokedS, .pendingS]
      = [renderState "t1" .pendingS, renderState "t1" .revokedS] :=
  C9_push_every_iteration_stop_on_terminal "t1" [.pendingS] .revokedS
    [.pendingS] (by decide) (by decide)

/-!
Broker publishers (`api-gateway/app/core/rabbitmq_publisher.py` and
`document-processor/app/core/rabbitmq_publisher.py`).  The AMQP transport is
an external collaborator: `transportOk` says whether the
`exchange.publish(...)` call succeeds or raises; the surrounding
`try/except` of each publish method catches any raise and returns False.
The `PublishedMsg` value stands for the JSON-serialized `aio_pika.Message`
body together with its delivery mode and routing key.
-/

/-- One chunk of an embedding envelope (`document["chunks"][i]`). -/
structure EChunk where
  chunk_id : String
  text : String
deriving DecidableEq

/-- The `document` object of an embedding envelope. -/
structure EDocument where
  file_name : Option String := none
  file_extension : Option String := none
  chunks : List EChunk := []
deriving DecidableEq

/-- The message bodies the three publish methods serialize. -/
inductive PubPayload
| fileTask (task_id : String) (file_path : String) (filename : String)
| folderTask (task_id : String) (file_paths : List String) (folder_name : String)
| embeddingTask (task_id : String) (document : EDocument)
deriving DecidableEq

/-- A message as handed to `exchange.publish`: serialized payload, delivery
mode, routing key. -/
structure PublishedMsg where
  payload : PubPayload
  persistent : Bool
  routing_key : String
deriving DecidableEq

/-- `RabbitMQPublisher.publish_file_task` (gateway rabbitmq_publisher.py
lines 50-86): build the body, mark it persistent, publish with routing key
`file.process`, return True; on any raise, log and return False. -/
def publish_file_task (transportOk : Bool)
    (task_id file_path filename : String) : Option PublishedMsg × Bool :=
  if transportOk then
    (some { payload := .fileTask task_id file_path filename
            persistent := true, routing_key := "file.process" }, true)
  else (none, false)

/-- `RabbitMQPublisher.publish_folder_task` (gateway rabbitmq_publisher.py
lines 88-129): same shape with routing key `folder.process`. -/
def publish_folder_task (transportOk : Bool) (task_id : String)
    (file_paths : List String) (folder_name : String) :
    Option PublishedMsg × Bool :=
  if transportOk then
    (some { payload := .folderTask task_id file_paths folder_name
            persistent := true, routing_key := "folder.process" }, true)
  else (none, false)

/-- `RabbitMQPublisher.publish_embedding_task` (document-processor
rabbitmq_publisher.py lines 48-97): same shape with routing key
`embedding.process` and an embedding document body. -/
def publish_embedding_task (transportOk : Bool) (task_id : String)
    (file_name file_extension : String) (chunks : List EChunk) :
    Option PublishedMsg × Bool :=
  if transportOk then
    (some { payload := .embeddingTask task_id
              { file_name := some file_name,
                file_extension := some file_extension, chunks := chunks }
            persistent := true, routing_key := "embedding.process" }, true)
  else (none, false)

/-- C8: every publish call serializes its payload, marks the message
persistent, publishes it with the corresponding routing key
(`file.process` / `folder.process` / `embedding.process`), and returns a
boolean — False on transport failure (the internal raise is caught), never
an exception: all three functions are total with a plain boolean result. -/
theorem C8_publisher_returns_boolean (ok : Bool) (tid fp fn fe : String)
    (fps : List String) (folder : String) (chunks : List EChunk) :
    ((publish_file_task ok tid fp fn).2 = ok
      ∧ (publish_file_task ok tid fp fn).1
          = if ok then some { payload := .fileTask tid fp fn
                              persistent := true, routing_key := "file.process" }
            else none)
    ∧ ((publish_folder_task ok tid fps folder).2 = ok
      ∧ (publish_folder_task ok tid fps folder).1
          = if ok then some { payload := .folderTask tid fps folder
                              persistent := true, routing_key := "folder.process" }
            else none)
    ∧ ((publish_embedding_task ok tid fn fe chunks).2 = ok
      ∧ (publish_embedding_task ok tid fn fe chunks).1
          = if ok then some { payload := .embeddingTask tid
                                { file_name := some fn,
                                  file_extension := some fe, chunks := chunks }
                              persistent := true, routing_key := "embedding.process" }
            else none) := by
  cases ok <;>
    simp [publish_file_task, publish_folder_task, publish_embedding_task]

/-!
Document worker (`document-processor/app/tasks/processing.py`).  The Celery
task `generate_embedding` is modelled over an explicit world (uploaded
files, status store, broker publishes) and an environment supplying the
external parse/split collaborators.
-/

/-- Path separator test (`/` and `\` both occur in the sources). -/
def isPathSep (c : Char) : Bool := c == '/' || c == '\\'

/-- The final path component (`pathlib.Path(...).name`). -/
def lastComponent (cs : List Char) : List Char :=
  (cs.reverse.takeWhile (fun c => !isPathSep c)).reverse

/-- `Path(s).name` as a string. -/
def baseName (s : String) : String := String.mk (lastComponent s.toList)

/-- `Path(s).suffix`: the last dot-suffix of the final component, empty when
the dot is absent, leading, or trailing (CPython rule
`0 < name.rfind('.') < len(name) - 1`). -/
def pySuffix (s : String) : String :=
  let name := lastComponent s.toList
  let afterRev := name.reverse.takeWhile (fun c => !(c == '.'))
  if afterRev.length = name.length then ""
  else
    let i := name.length - afterRev.length - 1
    if 0 < i && i < name.length - 1 then String.mk (name.drop i) else ""

/-- ASCII lower-casing of one character (`str.lower()` on extensions). -/
def asciiLower (c : Char) : Char :=
  if 'A' ≤ c ∧ c ≤ 'Z' then Char.ofNat (c.toNat + 32) else c

/-- `str.lower()`. -/
def lowerStr (s : String) : String := String.mk (s.toList.map asciiLower)

/-- `str.startswith(p)`. -/
def strStartsWith (s p : String) : Bool := p.toList.isPrefixOf s.toList

/-- The keyword arguments the worker passes to `update_task_status_sync`
(arbitrary keys merged by `task_data.update(updates)`); exactly the keys the
worker uses, each optional. -/
structure WPatch where
  status : Option String := none
  progress : Option Nat := none
  current_step : Option Nat := none
  total_steps : Option Nat := none
  message : Option String := none
  filename : Option String := none
  folder_name : Option String := none
  error : Option ErrObj := none
  result : Option ResultVal := none
  total_files : Option Nat := none
  current_file : Option Nat := none
  processed : Option Nat := none
  errorsN : Option Nat := none
deriving DecidableEq

/-- `task_data.update(updates)`: every key present in the patch overwrites
the stored field. -/
def applyWPatch (r : TaskRecord) (p : WPatch) : TaskRecord :=
  { status := p.status.getD r.status
    progress := p.progress.getD r.progress
    current_step := p.current_step.getD r.current_step
    total_steps := p.total_steps.getD r.total_steps
    message := p.message.getD r.message
    filename := p.filename.getD r.filename
    folder_name := p.folder_name.getD r.folder_name
    error := match p.error with | some e => some e | none => r.error
    result := match p.result with | some v => some v | none => r.result
    total_files := p.total_files.getD r.total_files
    current_file := p.current_file.getD r.current_file
    processed := p.processed.getD r.processed
    errorsN := p.errorsN.getD r.errorsN }

/-- `update_task_status_async` / `update_task_status_sync` (processing.py
lines 62-101): read the record; if present, merge the updates and write
back; if missing, only warn.  Like the gateway updater it never inspects the
stored status. -/
def update_task_status_sync (st : Store) (tid : String) (p : WPatch) : Store :=
  match storeGet st tid with
  | none => st
  | some r => storeSet st tid (applyWPatch r p)

theorem storeGet_update_task_status_sync (st : Store) (tid : String)
    (p : WPatch) :
    storeGet (update_task_status_sync st tid p) tid
      = (storeGet st tid).map (fun r => applyWPatch r p) := by
  unfold update_task_status_sync
  cases h : storeGet st tid <;> simp [h, storeGet_storeSet_self]

/-- The guard `if task_id and not task_id.startswith('celery-')` around
every worker-side status write. -/
def statusGate (tid : String) : Bool :=
  !(tid == "") && !(strStartsWith tid "celery-")

/-- A guarded status write. -/
def gupdate (g : Bool) (st : Store) (tid : String) (p : WPatch) : Store :=
  if g then update_task_status_sync st tid p else st

/-- `_cleanup_file`'s path resolution (processing.py lines 106-110): paths
already under `uploads` are used as-is, others are joined to the upload
directory. -/
def resolvePath (upload_dir filename : String) : String :=
  if strStartsWith filename "uploads" then filename
  else upload_dir ++ "/" ++ filename

/-- `_cleanup_file` (processing.py lines 103-121): unlink the resolved path
when it exists (no-op otherwise). -/
def cleanupFile (files : List String) (upload_dir filename : String) :
    List String :=
  files.filter (fun f => !(f == resolvePath upload_dir filename))

/-- The dict returned by `generate_embedding` (display-only keys omitted). -/
structure FileRet where
  status : String
  reason : Option String := none
  text_length : Option Nat := none
  chunks_count : Option Nat := none
deriving DecidableEq

/-- How a worker task invocation ends: a normal return, or a re-raised
exception of the given Python type. -/
inductive TaskOutcome
| ret (r : FileRet)
| raised (etype : String)
deriving DecidableEq

/-- The external collaborators of the document worker: the upload directory
and supported-extension set from settings, `parse` for the whole
parser-manager pipeline (`none` = parser missing or parsing failed) and
`split` for the chunker. -/
structure DocEnv where
  upload_dir : String
  supported : List String
  parse : String → Option String
  split : String → List String

/-- The worker-visible world: the filesystem's uploaded files, the status
store, and the broker messages published so far by this worker. -/
structure WorldState where
  files : List String
  store : Store
  published : List PublishedMsg
deriving DecidableEq

/-- The body of `generate_embedding` (processing.py lines 123-381), acting
on files, store and outcome.  Control flow follows the source: initial
`processing` write; unsupported-extension short-circuit (cleanup, `failed`
write, return a `skipped` dict); step writes 2-6; `FileNotFoundError` and
`ValueError` handlers write `failed` and re-raise.  No branch publishes any
broker message, and the commented-out step 7 performs no vector-store
hand-off. -/
def generate_embedding_core (env : DocEnv) (files : List String) (store : Store)
    (filename : String) (onlyfile : Bool) (task_id : String) :
    List String × Store × TaskOutcome :=
  let g := statusGate task_id
  let parts := filename.splitOn "\\"
  let dispach := if onlyfile then
      (if parts.length > 2 then "\\".intercalate (parts.drop 2) else filename)
    else filename
  let st1 := gupdate g store task_id
    { status := some "processing", progress := some 0, current_step := some 1
      total_steps := some 6, message := some "Начинается обработка файла..."
      filename := some (if dispach = "" then baseName filename else dispach) }
  let ext := lowerStr (pySuffix filename)
  if !(env.supported.contains ext) then
    let files1 := cleanupFile files env.upload_dir filename
    let st2 := gupdate g st1 task_id
      { status := some "failed", progress := some 100, current_step := some 1
        total_steps := some 6
        message := some ("Неподдерживаемый формат файла: " ++ ext)
        error := some ⟨"unsupported_format", "Формат " ++ ext ++ " не поддерживается"⟩ }
    (files1, st2, .ret { status := "skipped", reason := some "unsupported_format" })
  else
    let st2 := gupdate g st1 task_id
      { current_step := some 2, progress := some 15, status := some "processing"
        message := some "Проверка файла на дубликаты..." }
    let st3 := gupdate g st2 task_id
      { current_step := some 3, progress := some 30, status := some "processing"
        message := some "Поиск файла в файловой системе..." }
    let path := resolvePath env.upload_dir filename
    if !(files.contains path) then
      let st4 := gupdate g st3 task_id
        { status := some "failed", progress := some 100
          message := some "Файл не найден"
          error := some ⟨"file_not_found", "Файл " ++ filename ++ " не найден"⟩ }
      (files, st4, .raised "FileNotFoundError")
    else
      let st4 := gupdate g st3 task_id
        { current_step := some 4, progress := some 45, status := some "processing"
          message := some "Парсинг содержимого файла..." }
      match env.parse path with
      | none =>
        let st5 := gupdate g st4 task_id
          { status := some "failed", progress := some 100
            message := some "Ошибка обработки"
            error := some ⟨"validation_error", "Ошибка парсинга файла " ++ filename⟩ }
        (files, st5, .raised "ValueError")
      | some text =>
        if text.length = 0 then
          let st5 := gupdate g st4 task_id
            { status := some "failed", progress := some 100
              message := some "Ошибка обработки"
              error := some ⟨"validation_error", "Файл " ++ filename ++ " пустой"⟩ }
          (files, st5, .raised "ValueError")
        else
          let st5 := gupdate g st4 task_id
            { current_step := some 5, progress := some 60, status := some "processing"
              message := some "Разбиение текста на смысловые чанки..." }
          let chunks := env.split text
          if chunks.length = 0 then
            let st6 := gupdate g st5 task_id
              { status := some "failed", progress := some 100
                message := some "Ошибка обработки"
                error := some ⟨"validation_error", "Не удалось создать чанки из текста"⟩ }
            (files, st6, .raised "ValueError")
          else
            let st6 := gupdate g st5 task_id
              { current_step := some 6, progress := some 75, status := some "processing"
                message := some "Формирование метаданных документа..." }
            let files1 := cleanupFile files env.upload_dir filename
            let st7 := gupdate g st6 task_id
              { status := some "completed", progress := some 100
                current_step := some 6, total_steps := some 6
                message := some "Обработка файла успешно завершена!"
                result := some (.fileResult text.length chunks.length) }
            (files1, st7,
              .ret { status := "success", text_length := some text.length
                     chunks_count := some chunks.length })

/-- `generate_embedding` over the full world: the task mutates files and
store as above and leaves the worker's published-message log untouched
(there is no `publish_embedding_task` call anywhere in the task body). -/
def generate_embedding (env : DocEnv) (w : WorldState) (filename : String)
    (onlyfile : Bool) (task_id : String) : WorldState × TaskOutcome :=
  match generate_embedding_core env w.files w.store filename onlyfile task_id with
  | (files', store', out) =>
      ({ files := files', store := store', published := w.published }, out)

/-- A concrete environment in which parsing and chunking succeed. -/
def demoDocEnv : DocEnv :=
  { upload_dir := "uploads"
    supported := [".txt", ".pdf", ".docx", ".doc", ".xlsx", ".xls", ".dxf", ".dwg"]
    parse := fun _ => some "hello world"
    split := fun _ => ["hello", "world"] }

/-- A world holding one pending task and its uploaded file. -/
def demoWorld : WorldState :=
  { files := ["uploads/a.txt"], store := [("t1", {})], published := [] }

/-- C3 counterexample: a file the worker successfully parses (11 characters)
and chunks (2 chunks) reaches the terminal `completed` status, yet the
worker's broker-publish log is still empty — no envelope with routing key
`embedding.process` (nor any other) was published before or at completion. -/
theorem C3_no_embedding_handoff :
    (generate_embedding demoDocEnv demoWorld "a.txt" false "t1").2
      = .ret { status := "success", text_length := some 11, chunks_count := some 2 }
    ∧ (storeGet (generate_embedding demoDocEnv demoWorld "a.txt" false "t1").1.store
        "t1").map TaskRecord.status = some "completed"
    ∧ (generate_embedding demoDocEnv demoWorld "a.txt" false "t1").1.published
        = [] := by
  refine ⟨by decide, by decide, by decide⟩

/-- C3 (amended): the document worker does not call the embedding/vector API
directly, but it also never packages chunks into an embedding envelope: no
execution of `generate_embedding` publishes any broker message — the
`publish_embedding_task` helper (routing key `embedding.process`) exists in
the worker's publisher module but is never invoked, so the worker reaches
`completed` with no hand-off. -/
theorem C3_worker_never_publishes (env : DocEnv) (w : WorldState)
    (filename : String) (onlyfile : Bool) (task_id : String) :
    (generate_embedding env w filename onlyfile task_id).1.published
      = w.published := by
  unfold generate_embedding
  rcases h : generate_embedding_core env w.files w.store filename onlyfile task_id
    with ⟨f, s, o⟩
  simp

/-- C10: for an input file whose extension is not in the configured
supported set, `generate_embedding` under a non-`celery-` api task id
returns normally with a result dict whose own status is `skipped`, while the
store receives terminal status `failed` with `error.type =
unsupported_format` — the stored and returned statuses disagree — and the
uploaded file is deleted. -/
theorem C10_unsupported_format_disagreement (env : DocEnv) (w : WorldState)
    (filename task_id : String) (onlyfile : Bool) (r : TaskRecord)
    (hg : statusGate task_id = true)
    (hext : env.supported.contains (lowerStr (pySuffix filename)) = false)
    (hr : storeGet w.store task_id = some r) :
    (generate_embedding env w filename onlyfile task_id).2
      = .ret { status := "skipped", reason := some "unsupported_format" }
    ∧ (storeGet (generate_embedding env w filename onlyfile task_id).1.store
        task_id).map TaskRecord.status = some "failed"
    ∧ (storeGet (generate_embedding env w filename onlyfile task_id).1.store
        task_id).map TaskRecord.error
        = some (some ⟨"unsupported_format",
            "Формат " ++ lowerStr (pySuffix filename) ++ " не поддерживается"⟩)
    ∧ (generate_embedding env w filename onlyfile task_id).1.files
        = cleanupFile w.files env.upload_dir filename := by
  have hext' : lowerStr (pySuffix filename) ∉ env.supported := by
    simpa using hext
  refine ⟨?_, ?_, ?_, ?_⟩ <;>
    simp [generate_embedding, generate_embedding_core, hg, hext', gupdate,
      storeGet_update_task_status_sync, hr, applyWPatch]

/-- A second environment/world pair whose task's file has an unsupported
extension. -/
def demoDocEnv2 : DocEnv :=
  { upload_dir := "uploads", supported := [".txt"]
    parse := fun _ => some "x", split := fun t => [t] }

/-- World for the unsupported-extension run. -/
def demoWorld2 : WorldState :=
  { files := ["uploads/b.xyz"], store := [("t2", {})], published := [] }

/-- C10 witness: the theorem at the concrete `.xyz` upload. -/
theorem C10_unsupported_format_disagreement_witness :
    (generate_embedding demoDocEnv2 demoWorld2 "b.xyz" false "t2").2
      = .ret { status := "skipped", reason := some "unsupported_format" }
    ∧ (storeGet (generate_embedding demoDocEnv2 demoWorld2 "b.xyz" false "t2").1.store
        "t2").map TaskRecord.status = some "failed"
    ∧ (storeGet (generate_embedding demoDocEnv2 demoWorld2 "b.xyz" false "t2").1.store
        "t2").map TaskRecord.error
        = some (some ⟨"unsupported_format",
            "Формат " ++ lowerStr (pySuffix "b.xyz") ++ " не поддерживается"⟩)
    ∧ (generate_embedding demoDocEnv2 demoWorld2 "b.xyz" false "t2").1.files
        = cleanupFile demoWorld2.files demoDocEnv2.upload_dir "b.xyz" :=
  C10_unsupported_format_disagreement demoDocEnv2 demoWorld2 "b.xyz" "t2" false
    {} (by decide) (by decide) (by decide)

/-!
Embedding worker (`embedding-processor/app/handlers/embedding_handler.py`
and `embedding-processor/app/tasks/embedding_task.py`).
-/

/-- An `embedding.process` payload as read by the handler. -/
structure EPayload where
  type : Option String := none
  task_id : Option String := none
  document : Option EDocument := none
deriving DecidableEq

/-- The `celery_app.send_task("embedding.create", ...)` dispatch. -/
structure EmbSend where
  taskName : String
  task_id : String
  document : EDocument
deriving DecidableEq

/-- `handle_embedding_event` (embedding_handler.py lines 6-36): a non-
`embedding` type is logged and dropped (`.ok none`); a payload with a falsy
`task_id` or an empty chunk list raises `ValueError("Invalid embedding
payload")` (`.error`); otherwise the Celery task is dispatched. -/
def handle_embedding_event (p : EPayload) : Except String (Option EmbSend) :=
  if p.type ≠ some "embedding" then .ok none
  else
    let document := p.document.getD {}
    if strFalsy p.task_id || document.chunks.isEmpty then
      .error "Invalid embedding payload"
    else
      .ok (some { taskName := "embedding.create", task_id := p.task_id.getD ""
                  document := document })

/-- The embedding worker's external collaborators: the embedding model (one
vector per text) and whether the Qdrant upsert call succeeds or raises. -/
structure EmbEnv where
  embed : String → List Int
  upsertOk : Bool

/-- The dict returned by `create_embeddings`: `{task_id, status, count}`. -/
structure EResult where
  task_id : String
  status : String
  count : Nat
deriving DecidableEq

/-- `create_embeddings` (embedding_task.py lines 11-56): empty chunk list →
`no_chunks` with count 0; embed all texts, zip into points; upsert failure →
`failed` with count 0; success → `success` with the point count. -/
def create_embeddings (env : EmbEnv) (task_id : String) (document : EDocument) :
    EResult :=
  let chunks := document.chunks
  if chunks.isEmpty then { task_id, status := "no_chunks", count := 0 }
  else
    let texts := chunks.map (fun c => c.text)
    let vectors := texts.map env.embed
    let points := chunks.zip vectors
    if env.upsertOk then { task_id, status := "success", count := points.length }
    else { task_id, status := "failed", count := 0 }

/-- An embedding payload whose document carries an empty chunk list. -/
def emptyChunksPayload : EPayload :=
  { type := some "embedding", task_id := some "t1", document := some {} }

/-- C7 counterexample: on the consumption path an embedding message with an
empty chunk list is not reduced to the non-error terminal state `no_chunks`:
`handle_embedding_event` raises `ValueError` before the Celery task is ever
dispatched, so the empty chunk list IS a raised error at message level. -/
theorem C7_empty_chunks_raises :
    handle_embedding_event emptyChunksPayload
      = .error "Invalid embedding payload" := rfl

/-- C7 (amended): the Celery task `create_embeddings` does reduce every
outcome to `{task_id, status, count}` — empty chunk list → `no_chunks` with
count 0, upsert failure → `failed` with count 0 (never a partial success),
success → `success` with the upserted point count — but the message handler
in front of it raises `ValueError` on an empty chunk list, so the
`no_chunks` reduction is unreachable from a consumed broker message. -/
theorem C7_terminal_reduction (env : EmbEnv) (tid : String) (doc : EDocument)
    (p : EPayload) :
    (doc.chunks = [] →
        create_embeddings env tid doc
          = { task_id := tid, status := "no_chunks", count := 0 })
    ∧ (doc.chunks ≠ [] → env.upsertOk = false →
        create_embeddings env tid doc
          = { task_id := tid, status := "failed", count := 0 })
    ∧ (doc.chunks ≠ [] → env.upsertOk = true →
        create_embeddings env tid doc
          = { task_id := tid, status := "success", count := doc.chunks.length })
    ∧ (p.type = some "embedding" → (p.document.getD {}).chunks = [] →
        handle_embedding_event p = .error "Invalid embedding payload") := by
  refine ⟨?_, ?_, ?_, ?_⟩
  · intro h
    simp [create_embeddings, h]
  · intro h hup
    simp [create_embeddings, h, hup]
  · intro h hup
    simp [create_embeddings, h, hup]
  · intro h1 h2
    simp [handle_embedding_event, h1, h2]

/-- A document with two chunks. -/
def demoDoc2 : EDocument :=
  { chunks := [⟨"c1", "hello"⟩, ⟨"c2", "world"⟩] }

/-- C7 witness: all four reductions at concrete inputs. -/
theorem C7_terminal_reduction_witness :
    create_embeddings ⟨fun _ => [0], true⟩ "t1" {}
      = { task_id := "t1", status := "no_chunks", count := 0 }
    ∧ create_embeddings ⟨fun _ => [0], false⟩ "t1" demoDoc2
      = { task_id := "t1", status := "failed", count := 0 }
    ∧ create_embeddings ⟨fun _ => [0], true⟩ "t1" demoDoc2
      = { task_id := "t1", status := "success", count := demoDoc2.chunks.length }
    ∧ handle_embedding_event emptyChunksPayload
      = .error "Invalid embedding payload" :=
  ⟨(C7_terminal_reduction ⟨fun _ => [0], true⟩ "t1" {} emptyChunksPayload).1 rfl,
   (C7_terminal_reduction ⟨fun _ => [0], false⟩ "t1" demoDoc2 emptyChunksPayload).2.1
     (by decide) rfl,
   (C7_terminal_reduction ⟨fun _ => [0], true⟩ "t1" demoDoc2 emptyChunksPayload).2.2.1
     (by decide) rfl,
   (C7_terminal_reduction ⟨fun _ => [0], true⟩ "t1" {} emptyChunksPayload).2.2.2
     rfl rfl⟩

/-!
Folder batch (`generate_embedding_batch`, processing.py lines 383-520).
Each per-file sub-invocation is `generate_embedding.apply_async(...)`
followed by `async_result.get(timeout=300)`; its outcome (the returned dict,
or the exception `get` raises — including the timeout) is supplied as an
oracle alongside each file path.
-/

/-- One `apply_async` sub-invocation as issued by the batch loop. -/
structure SubInv where
  api_task_id : String
  queue : String
  timeoutSecs : Nat
deriving DecidableEq

/-- How one sub-invocation's `get(timeout=300)` ends: the returned dict, or
an exception (task failure or timeout). -/
inductive SubOutcome
| ok (r : FileRet)
| exn (msg : String)
deriving DecidableEq

/-- The state the batch loop accumulates. -/
structure BatchLoopOut where
  store : Store
  invs : List SubInv
  results : List BatchEntry
  errors : List BatchError
  processed : Nat
deriving DecidableEq

/-- The error entry the inner `except` records for one failing file. -/
def mkBatchError (job : String × SubOutcome) : BatchError :=
  match job with
  | (fp, .exn m) =>
      { filename := baseName fp
        error := "Ошибка обработки " ++ baseName fp ++ ": " ++ m }
  | (fp, .ok _) => { filename := baseName fp, error := "" }

/-- The sub-invocation of the `idx`-th file (1-based), with derived task id
`f"{task_id}_{idx}"`, the `documents.tasks` queue and the 300-second
`get` timeout. -/
def mkSubInv (tid : String) (idx : Nat) : SubInv :=
  { api_task_id := tid ++ "_" ++ toString idx
    queue := "documents.tasks", timeoutSecs := 300 }

/-- The `for idx, file_path_str in enumerate(file_paths, 1)` loop
(processing.py lines 409-464): write a progress update, issue the
sub-invocation, wait for it; a `skipped` dict is recorded in `results[]`
without incrementing `processed`; any other dict increments `processed` and
is recorded in `results[]`; an exception is caught and recorded in
`errors[]` — the loop continues with the next file in every case. -/
def batchLoop (g : Bool) (tid : String) (total : Nat) :
    Store → Nat → Nat → Nat → List (String × SubOutcome) → BatchLoopOut
| st, _, procSoFar, _, [] =>
    { store := st, invs := [], results := [], errors := [], processed := procSoFar }
| st, idx, procSoFar, errsSoFar, (fp, outc) :: rest =>
  let st1 := gupdate g st tid
    { progress := some ((idx - 1) * 100 / total), current_file := some idx
      processed := some procSoFar, errorsN := some errsSoFar
      message := some ("Обработка файла " ++ toString idx ++ "/"
        ++ toString total ++ ": " ++ baseName fp) }
  let inv := mkSubInv tid idx
  match outc with
  | .ok r =>
      if r.status = "skipped" then
        let o := batchLoop g tid total st1 (idx + 1) procSoFar errsSoFar rest
        { o with invs := inv :: o.invs
                 results := { filename := baseName fp, status := "skipped"
                              reason := r.reason } :: o.results }
      else
        let o := batchLoop g tid total st1 (idx + 1) (procSoFar + 1) errsSoFar rest
        { o with invs := inv :: o.invs
                 results := { filename := baseName fp
                              status := "success" } :: o.results }
  | .exn m =>
      let o := batchLoop g tid total st1 (idx + 1) procSoFar (errsSoFar + 1) rest
      { o with invs := inv :: o.invs
               errors := mkBatchError (fp, .exn m) :: o.errors }

/-- `generate_embedding_batch` (processing.py lines 383-520): initial
`processing` write, the sequential per-file loop, the `final_result` dict,
and the terminal `completed` write carrying it.  (The staging-folder
`shutil.rmtree` between the loop and the final write touches no modelled
state.) -/
def generate_embedding_batch (jobs : List (String × SubOutcome))
    (folder_name : String) (task_id : String) (st : Store) :
    Store × BatchFinal × List SubInv :=
  let g := statusGate task_id
  let total := jobs.length
  let st0 := gupdate g st task_id
    { status := some "processing", progress := some 0
      message := some ("Начинается пакетная обработка: "
        ++ toString total ++ " файлов")
      folder_name := some folder_name, total_files := some total }
  let o := batchLoop g task_id total st0 1 0 0 jobs
  let final : BatchFinal :=
    { status := "completed", total_files := total, processed := o.processed
      errors_count := o.errors.length, results := o.results, errors := o.errors }
  let st2 := gupdate g o.store task_id
    { status := some "completed", progress := some 100
      message := some ("Пакетная обработка завершена: "
        ++ toString o.processed ++ "/" ++ toString total ++ " успешно")
      result := some (.batchResult final) }
  (st2, final, o.invs)

/-- A sub-invocation that returned a non-`skipped` dict (counted in
`processed`). -/
def isSuccessJob : String × SubOutcome → Bool
| (_, .ok r) => decide (r.status ≠ "skipped")
| (_, .exn _) => false

/-- A sub-invocation that raised (task failure or `get` timeout). -/
def isErrorJob : String × SubOutcome → Bool
| (_, .exn _) => true
| (_, .ok _) => false

/-- A sub-invocation that returned a dict at all (recorded in `results[]`). -/
def isOkJob : String × SubOutcome → Bool
| (_, .ok _) => true
| (_, .exn _) => false

theorem storeGet_gupdate_isSome (g : Bool) (st : Store) (tid : String)
    (p : WPatch) :
    (storeGet (gupdate g st tid p) tid).isSome = (storeGet st tid).isSome := by
  cases g <;> simp [gupdate, storeGet_update_task_status_sync]

theorem batchLoop_processed (g : Bool) (tid : String) (total : Nat)
    (jobs : List (String × SubOutcome)) :
    ∀ st idx p e,
      (batchLoop g tid total st idx p e jobs).processed
        = p + jobs.countP isSuccessJob := by
  induction jobs with
  | nil => intro st idx p e; simp [batchLoop]
  | cons job rest ih =>
      intro st idx p e
      obtain ⟨fp, outc⟩ := job
      cases outc with
      | ok r =>
          by_cases hs : r.status = "skipped"
          · simp [batchLoop, hs, ih, isSuccessJob, List.countP_cons]
          · simp [batchLoop, hs, ih, isSuccessJob, List.countP_cons]
            omega
      | exn m => simp [batchLoop, ih, isSuccessJob, List.countP_cons]

theorem batchLoop_errors (g : Bool) (tid : String) (total : Nat)
    (jobs : List (String × SubOutcome)) :
    ∀ st idx p e,
      (batchLoop g tid total st idx p e jobs).errors
        = (jobs.filter isErrorJob).map mkBatchError := by
  induction jobs with
  | nil => intro st idx p e; simp [batchLoop]
  | cons job rest ih =>
      intro st idx p e
      obtain ⟨fp, outc⟩ := job
      cases outc with
      | ok r =>
          by_cases hs : r.status = "skipped"
          · simp [batchLoop, hs, ih, isErrorJob]
          · simp [batchLoop, hs, ih, isErrorJob]
      | exn m => simp [batchLoop, ih, isErrorJob, mkBatchError]

theorem batchLoop_results_length (g : Bool) (tid : String) (total : Nat)
    (jobs : List (String × SubOutcome)) :
    ∀ st idx p e,
      (batchLoop g tid total st idx p e jobs).results.length
        = jobs.countP isOkJob := by
  induction jobs with
  | nil => intro st idx p e; simp [batchLoop]
  | cons job rest ih =>
      intro st idx p e
      obtain ⟨fp, outc⟩ := job
      cases outc with
      | ok r =>
          by_cases hs : r.status = "skipped"
          · simp [batchLoop, hs, ih, isOkJob, List.countP_cons]
          · simp [batchLoop, hs, ih, isOkJob, List.countP_cons]
      | exn m => simp [batchLoop, ih, isOkJob, List.countP_cons]

theorem batchLoop_invs_length (g : Bool) (tid : String) (total : Nat)
    (jobs : List (String × SubOutcome)) :
    ∀ st idx p e,
      (batchLoop g tid total st idx p e jobs).invs.length = jobs.length := by
  induction jobs with
  | nil => intro st idx p e; simp [batchLoop]
  | cons job rest ih =>
      intro st idx p e
      obtain ⟨fp, outc⟩ := job
      cases outc with
      | ok r =>
          by_cases hs : r.status = "skipped"
          · simp [batchLoop, hs, ih]
          · simp [batchLoop, hs, ih]
      | exn m => simp [batchLoop, ih]

theorem batchLoop_invs_get (g : Bool) (tid : String) (total : Nat)
    (jobs : List (String × SubOutcome)) :
    ∀ st idx p e k, k < jobs.length →
      (batchLoop g tid total st idx p e jobs).invs[k]?
        = some (mkSubInv tid (idx + k)) := by
  induction jobs with
  | nil => intro st idx p e k hk; simp at hk
  | cons job rest ih =>
      intro st idx p e k hk
      obtain ⟨fp, outc⟩ := job
      cases k with
      | zero =>
          cases outc with
          | ok r =>
              by_cases hs : r.status = "skipped"
              · simp [batchLoop, hs]
              · simp [batchLoop, hs]
          | exn m => simp [batchLoop]
      | succ k' =>
          have hk' : k' < rest.length := by
            simpa [Nat.succ_lt_succ_iff] using hk
          have harith : idx + (k' + 1) = (idx + 1) + k' := by omega
          cases outc with
          | ok r =>
              by_cases hs : r.status = "skipped"
              · simp [batchLoop, hs, ih _ _ _ _ _ hk', harith]
              · simp [batchLoop, hs, ih _ _ _ _ _ hk', harith]
          | exn m => simp [batchLoop, ih _ _ _ _ _ hk', harith]

theorem batchLoop_store_isSome (g : Bool) (tid : String) (total : Nat)
    (jobs : List (String × SubOutcome)) :
    ∀ st idx p e,
      (storeGet (batchLoop g tid total st idx p e jobs).store tid).isSome
        = (storeGet st tid).isSome := by
  induction jobs with
  | nil => intro st idx p e; simp [batchLoop]
  | cons job rest ih =>
      intro st idx p e
      obtain ⟨fp, outc⟩ := job
      cases outc with
      | ok r =>
          by_cases hs : r.status = "skipped"
          · simp [batchLoop, hs, ih, storeGet_gupdate_isSome]
          · simp [batchLoop, hs, ih, storeGet_gupdate_isSome]
      | exn m => simp [batchLoop, ih, storeGet_gupdate_isSome]

theorem countP_ok_add_countP_err (jobs : List (String × SubOutcome)) :
    jobs.countP isOkJob + jobs.countP isErrorJob = jobs.length := by
  induction jobs with
  | nil => simp
  | cons job rest ih =>
      obtain ⟨fp, outc⟩ := job
      cases outc <;> simp [List.countP_cons, isOkJob, isErrorJob] <;> omega

theorem storeGet_gupdate_status (Y : Store) (tid : String) (p : WPatch)
    (s : String) (hp : p.status = some s)
    (hY : (storeGet Y tid).isSome = true) :
    (storeGet (gupdate true Y tid p) tid).map TaskRecord.status = some s := by
  obtain ⟨r', hr'⟩ := Option.isSome_iff_exists.mp hY
  simp [gupdate, storeGet_update_task_status_sync, hr', applyWPatch, hp]

/-- C6: the folder batch runs one sub-invocation per file, sequentially and
in order, each on queue `documents.tasks` with derived task id
`{task_id}_{index}` (1-based) and a 300-second per-file timeout; the final
result has status `completed` with `processed` = the number of
non-skipped successful files, every raising (failing or timed-out) file
recorded as an `errors[]` entry and excluded from `processed`,
`results[]`/`errors[]` jointly accounting for all N files; and the parent
record's stored status reaches `completed` after the loop. -/
theorem C6_folder_batch_aggregation (jobs : List (String × SubOutcome))
    (folder tid : String) (st : Store) (r : TaskRecord)
    (hg : statusGate tid = true)
    (hr : storeGet st tid = some r) :
    (generate_embedding_batch jobs folder tid st).2.1.status = "completed"
    ∧ (generate_embedding_batch jobs folder tid st).2.1.total_files = jobs.length
    ∧ (generate_embedding_batch jobs folder tid st).2.1.processed
        = jobs.countP isSuccessJob
    ∧ (generate_embedding_batch jobs folder tid st).2.1.errors_count
        = jobs.countP isErrorJob
    ∧ (generate_embedding_batch jobs folder tid st).2.1.errors
        = (jobs.filter isErrorJob).map mkBatchError
    ∧ (generate_embedding_batch jobs folder tid st).2.1.results.length
        + (generate_embedding_batch jobs folder tid st).2.1.errors.length
        = jobs.length
    ∧ (generate_embedding_batch jobs folder tid st).2.2.length = jobs.length
    ∧ (∀ k, k < jobs.length →
        (generate_embedding_batch jobs folder tid st).2.2[k]?
          = some (mkSubInv tid (k + 1)))
    ∧ (storeGet (generate_embedding_batch jobs folder tid st).1 tid).map
        TaskRecord.status = some "completed" := by
  refine ⟨?_, ?_, ?_, ?_, ?_, ?_, ?_, ?_, ?_⟩
  · simp [generate_embedding_batch]
  · simp [generate_embedding_batch]
  · simp [generate_embedding_batch, batchLoop_processed]
  · simp [generate_embedding_batch, batchLoop_errors,
      List.countP_eq_length_filter]
  · simp [generate_embedding_batch, batchLoop_errors]
  · have htot := countP_ok_add_countP_err jobs
    simp [generate_embedding_batch, batchLoop_results_length, batchLoop_errors]
    rw [← List.countP_eq_length_filter]
    omega
  · simp [generate_embedding_batch, batchLoop_invs_length]
  · intro k hk
    simp only [generate_embedding_batch]
    rw [batchLoop_invs_get _ tid _ jobs _ 1 0 0 k hk, Nat.add_comm]
  · simp only [generate_embedding_batch]
    rw [hg]
    apply storeGet_gupdate_status _ _ _ _ rfl
    rw [batchLoop_store_isSome, storeGet_gupdate_isSome]
    simp [hr]

/-- Scenario E: three files, the middle one failing. -/
def demoJobs : List (String × SubOutcome) :=
  [("uploads/f/a.txt", .ok { status := "success" }),
   ("uploads/f/b.txt", .exn "boom"),
   ("uploads/f/c.txt", .ok { status := "success" })]

/-- A store holding the parent batch record. -/
def demoBatchStore : Store := [("tb", {})]

/-- C6 witness: the aggregation theorem at the three-file batch with one
failing file. -/
theorem C6_folder_batch_aggregation_witness :
    (generate_embedding_batch demoJobs "f" "tb" demoBatchStore).2.1.status
      = "completed"
    ∧ (generate_embedding_batch demoJobs "f" "tb" demoBatchStore).2.1.processed
        = demoJobs.countP isSuccessJob
    ∧ (generate_embedding_batch demoJobs "f" "tb" demoBatchStore).2.2[1]?
        = some (mkSubInv "tb" 2)
    ∧ (storeGet (generate_embedding_batch demoJobs "f" "tb" demoBatchStore).1
        "tb").map TaskRecord.status = some "completed" := by
  have h := C6_folder_batch_aggregation demoJobs "f" "tb" demoBatchStore {}
    (by decide) (by decide)
  exact ⟨h.1, h.2.2.1, h.2.2.2.2.2.2.2.1 1 (by decide), h.2.2.2.2.2.2.2.2⟩
